import Mathlib

/-!
Shallow embedding of the Elixi-AI learning pipeline
(`python-core/memory/memory_manager.py`, `python-core/memory/preference_manager.py`,
`python-core/automation/suggestion_engine.py`, `python-core/automation/habit_learning.py`)
together with theorems settling the specification claims about it.

Modelling conventions:
* A MongoDB collection is modelled as a Lean list of documents; the
  `collection is None` guard of every method (database not configured) is outside
  the modelled region — the list parameter stands for a configured collection.
* ISO-8601 timestamp strings (all produced by `datetime.utcnow().isoformat()`,
  hence of identical format, and compared only with each other) are modelled as
  integers: lexicographic order on such strings coincides with chronological
  order.  The unit (days / minutes) is stated at each definition.
* Python floats are modelled as rationals (`ℚ`).
* Mongo `update_one` updates the first matching document; `update_many` updates
  every matching document; both are modelled by structural recursion / `map`.
-/

set_option autoImplicit false

namespace Elixi

/-- A document of the `memories` collection, as written by
`MemoryManager.save_memory`.  Fields that no embedded operation reads
(`context`, `relevance_score`, `expiry_date`) are omitted.
`type` is the memory type string (conversation, preference, event, fact,
learning), `importance` one of low / medium / high, `timestamp` the creation
time in days (ISO order ≅ integer order). -/
structure Memory where
  memory_id : String
  type : String
  content : String
  timestamp : Int
  tags : List String
  importance : String
  archived : Bool
  archived_at : Option Int
  access_count : Nat
  last_accessed : Option Int
  deriving DecidableEq, Repr

/-- The per-type retention windows built by `cleanup_old_memories`
(`retention_policies` dict): conversation ×1, preference ×3, fact ×10,
learning ×5, event ×2 of the base `days_to_keep`. -/
def retentionPolicies (days_to_keep : Int) : List (String × Int) :=
  [("conversation", days_to_keep),
   ("preference", days_to_keep * 3),
   ("fact", days_to_keep * 10),
   ("learning", days_to_keep * 5),
   ("event", days_to_keep * 2)]

/-- The retention multiplier of a memory type (1 / 3 / 10 / 5 / 2). -/
def retentionMult (t : String) : Int :=
  if t = ("conversation") then 1
  else if t = ("preference") then 3
  else if t = ("fact") then 10
  else if t = ("learning") then 5
  else if t = ("event") then 2
  else 0

/-- The five memory types that have a retention policy. -/
def retentionTypes : List String :=
  [("conversation"), ("preference"), ("fact"), ("learning"), ("event")]

/-- One `update_many` pass of `cleanup_old_memories` for memory type `t` with
cutoff `now - retention_days`: archive the document when its type is `t`, its
timestamp is strictly below the cutoff, it is not yet archived and its
importance is `low`. -/
def cleanupPass (now retention_days : Int) (t : String) (m : Memory) : Memory :=
  if m.type = t ∧ m.timestamp < now - retention_days ∧ m.archived = false ∧
      m.importance = ("low") then
    { m with archived := true, archived_at := some now }
  else m

/-- `MemoryManager.cleanup_old_memories(days_to_keep)` at current time `now`
(days): the five per-type `update_many` passes in source order, returning the
updated collection and the number of archived documents. -/
def cleanupOldMemories (now days_to_keep : Int) (store : List Memory) :
    List Memory × Nat :=
  (retentionPolicies days_to_keep).foldl
    (fun acc p =>
      let updated := acc.1.map (cleanupPass now p.2 p.1)
      let modified := (acc.1.zip updated).countP (fun q => decide (q.1 ≠ q.2))
      (updated, acc.2 + modified))
    (store, 0)

/-- Effect of the whole cleanup sweep on a single record of one of the five
policed types: archive iff unarchived, low importance and older than the base
window scaled by the type's multiplier. -/
def cleanupRecord (now days_to_keep : Int) (m : Memory) : Memory :=
  if m.timestamp < now - retentionMult m.type * days_to_keep ∧
      m.archived = false ∧ m.importance = ("low") then
    { m with archived := true, archived_at := some now }
  else m

/-- The five cleanup passes composed on one record, in the source's loop
order. -/
def cleanupChain (now d : Int) (m : Memory) : Memory :=
  cleanupPass now (d * 2) ("event")
    (cleanupPass now (d * 5) ("learning")
      (cleanupPass now (d * 10) ("fact")
        (cleanupPass now (d * 3) ("preference")
          (cleanupPass now d ("conversation") m))))

/-- A low-importance `fact` memory 700 days old (current time 1000, so
timestamp 300). -/
def mem700 : Memory :=
  { memory_id := "m700", type := "fact", content := "", timestamp := 300,
    tags := [], importance := "low", archived := false, archived_at := none,
    access_count := 0, last_accessed := none }

/-- A low-importance `fact` memory 901 days old (current time 1000, so
timestamp 99). -/
def mem901 : Memory :=
  { memory_id := "m901", type := "fact", content := "", timestamp := 99,
    tags := [], importance := "low", archived := false, archived_at := none,
    access_count := 0, last_accessed := none }

/-- A document of the `suggestions` collection, as written by
`SuggestionEngine.create_suggestion` (`suggested_action`, which no embedded
operation reads, is omitted).  `status` is `pending` / `responded` /
`dismissed`; `user_response` is `accepted` / `rejected` / `later` / `ignored`
once set. -/
structure Suggestion where
  suggestion_id : String
  type : String
  title : String
  description : String
  confidence_score : ℚ
  status : String
  created_date : Int
  shown_date : Option Int
  response_date : Option Int
  user_response : Option String
  helpful : Option Bool
  deriving DecidableEq, Repr

/-- The `$set` document of `respond_to_suggestion`: status becomes
`responded`, `user_response` and `response_date` are overwritten, and
`helpful` is overwritten only when a value was supplied (`helpful is not
None`). -/
def respondUpdate (now : Int) (response : String) (helpful : Option Bool)
    (s : Suggestion) : Suggestion :=
  { s with
    status := "responded"
    user_response := some response
    response_date := some now
    helpful := match helpful with | some h => some h | none => s.helpful }

/-- Mongo `update_one`: apply `f` to the first document matching `p`. -/
def updateFirst {α : Type} (p : α → Bool) (f : α → α) : List α → List α
  | [] => []
  | x :: xs => if p x then f x :: xs else x :: updateFirst p f xs

/-- Result dictionary of `respond_to_suggestion`. -/
structure RespondResult where
  success : Bool
  message : String
  deriving DecidableEq, Repr

/-- `SuggestionEngine.respond_to_suggestion(suggestion_id, response, helpful)`:
`update_one` on the suggestion id (no status filter), then an unconditional
success result. -/
def respondToSuggestion (now : Int) (store : List Suggestion)
    (suggestion_id response : String) (helpful : Option Bool) :
    List Suggestion × RespondResult :=
  (updateFirst (fun s => s.suggestion_id = suggestion_id)
      (respondUpdate now response helpful) store,
    { success := true, message := "Response recorded: " ++ response })

/-- An already-responded suggestion used as concrete input. -/
def sugg0 : Suggestion :=
  { suggestion_id := "sg1", type := "learning", title := "t",
    description := "d", confidence_score := 1, status := "responded",
    created_date := 1, shown_date := none, response_date := some 2,
    user_response := some ("accepted"), helpful := some true }

/-- A document of the `user_preferences` collection, exactly the dict built by
`PreferenceManager.set_preference` (preference values are modelled as
strings). -/
structure Preference where
  preference_id : String
  category : String
  key : String
  value : String
  set_date : Int
  modified_date : Int
  source : String
  confidence : ℚ
  version : Nat
  deriving DecidableEq, Repr

/-- Result dictionary of the preference write operations: `success`, the
`error` message when failing, and the fresh `preference_id` when
`set_preference` succeeds. -/
structure PrefResult where
  success : Bool
  error : Option String
  preference_id : Option String
  deriving DecidableEq, Repr

/-- The full document `set_preference` `$set`s: fresh time-based id, the given
category/key/value/source, both dates set to now, confidence clamped by
`max(0, min(1, confidence))`, and `version` always `1`. -/
def newPreferenceDoc (now : Int) (category key value source : String)
    (confidence : ℚ) : Preference :=
  { preference_id := ("pref_") ++ toString now
    category := category
    key := key
    value := value
    set_date := now
    modified_date := now
    source := source
    confidence := max 0 (min 1 confidence)
    version := 1 }

/-- Mongo `update_one(..., upsert=True)` where the update `$set`s every field
of the document: replace the first document matching `(category, key)`, or
append when none matches. -/
def upsertPreference (doc : Preference) : List Preference → List Preference
  | [] => [doc]
  | p :: ps =>
    if p.category == doc.category && p.key == doc.key then doc :: ps
    else p :: upsertPreference doc ps

/-- `PreferenceManager.set_preference(category, key, value, source,
confidence)`.  The append-only `preference_history` audit log written by
`_log_preference_change` is read by no embedded operation and is omitted. -/
def setPreference (now : Int) (store : List Preference)
    (category key value source : String) (confidence : ℚ) :
    List Preference × PrefResult :=
  (upsertPreference (newPreferenceDoc now category key value source confidence)
      store,
    { success := true, error := none,
      preference_id := some (("pref_") ++ toString now) })

/-- `PreferenceManager.learn_preference`: reject candidates with confidence
below 0.3, otherwise delegate to `set_preference` with `source="inferred"`. -/
def learnPreference (now : Int) (store : List Preference)
    (category key value : String) (confidence : ℚ) :
    List Preference × PrefResult :=
  if confidence < 3/10 then
    (store, { success := false, error := some ("Confidence too low"),
              preference_id := none })
  else setPreference now store category key value ("inferred") confidence

/-- The `$set` of `apply_preference`: promote to `manual`, refresh
`modified_date`, confidence `1.0`. -/
def applyUpdate (now : Int) (p : Preference) : Preference :=
  { p with source := "manual", modified_date := now, confidence := 1 }

/-- Whether a preference document matches the `(category, key)` filter. -/
def prefMatches (category key : String) (p : Preference) : Bool :=
  p.category == category && p.key == key

/-- `PreferenceManager.apply_preference(category, key)`: `update_one` on
`(category, key)`, then `matched_count == 0` reports "Preference not
found". -/
def applyPreference (now : Int) (store : List Preference)
    (category key : String) : List Preference × PrefResult :=
  if (store.find? (prefMatches category key)).isSome then
    (updateFirst (prefMatches category key) (applyUpdate now) store,
      { success := true, error := none, preference_id := none })
  else
    (store, { success := false, error := some ("Preference not found"),
              preference_id := none })

/-- Mongo `find_one` on the `(category, key)` filter. -/
def lookupPref (store : List Preference) (category key : String) :
    Option Preference :=
  store.find? (prefMatches category key)

/-- Store after `set_preference("voice","speed","fast","manual",1)` at time
10 on an empty collection. -/
def prefStore1 : List Preference :=
  (setPreference 10 [] ("voice") ("speed") ("fast") ("manual") 1).1

/-- Store after a second, identical `set_preference` call at time 20. -/
def prefStore2 : List Preference :=
  (setPreference 20 prefStore1 ("voice") ("speed") ("fast") ("manual") 1).1

/-- Stable insertion into a sorted list: `x` goes before the first `y` with
`le x y`.  Used to model Python's stable `list.sort(key=..., reverse=...)`:
`le a b` reads "a may come before b", and holds for ties, so equal keys keep
their original order. -/
def insSorted {α : Type} (le : α → α → Bool) (x : α) : List α → List α
  | [] => [x]
  | y :: ys => if le x y then x :: y :: ys else y :: insSorted le x ys

/-- Stable sort by the relation `le` (Python `list.sort` / Mongo `sort`). -/
def pySort {α : Type} (le : α → α → Bool) (l : List α) : List α :=
  l.foldr (insSorted le) []

/-- `{"high": 2, "medium": 1, "low": 0}.get(importance, 0)`. -/
def importanceRank (importance : String) : Nat :=
  if importance == ("high") then 2
  else if importance == ("medium") then 1
  else 0

/-- A memory together with the `similarity_score` (for `semantic_search`) or
`match_score` (for `search_memories`) field attached to the returned dict. -/
structure ScoredMemory where
  mem : Memory
  score : ℚ
  deriving DecidableEq, Repr

/-- The comparator realising
`results.sort(key=lambda m: (-similarity_score, importance_rank, timestamp), reverse=True)`:
`a` comes before `b` iff the key tuple of `a` is lexicographically ≥ the key
tuple of `b` (descending order on the tuple `(-score, rank, timestamp)`). -/
def semSortGe (a b : ScoredMemory) : Bool :=
  decide (-b.score < -a.score) ||
    (-a.score == -b.score &&
      (decide (importanceRank b.mem.importance <
          importanceRank a.mem.importance) ||
        (importanceRank a.mem.importance == importanceRank b.mem.importance &&
          decide (b.mem.timestamp ≤ a.mem.timestamp))))

/-- Result dictionary of `semantic_search` / `search_memories`. -/
structure SemResult where
  success : Bool
  memories : List ScoredMemory
  count : Nat
  deriving DecidableEq, Repr

/-- The active-memory filter of `semantic_search`: `{"archived": False}` plus
the optional `{"type": memory_type}`. -/
def activeMemories (store : List Memory) (memory_type : Option String) :
    List Memory :=
  store.filter (fun m =>
    m.archived == false &&
      (match memory_type with | some t => m.type == t | none => true))

/-- `MemoryManager.semantic_search(query, memory_type, limit, threshold)`.
`fitOk` models whether `TfidfVectorizer.fit` succeeds on the degenerate-or-not
vocabulary (its failure is caught and turned into an empty success); `sim m`
is the sklearn cosine similarity of memory `m`'s content against the query
vector.  The three degenerate early returns and the
threshold/sort/limit pipeline follow the source. -/
def semanticSearch (store : List Memory) (memory_type : Option String)
    (limit : Nat) (threshold : ℚ) (fitOk : Bool) (sim : Memory → ℚ) :
    SemResult :=
  let all_memories := activeMemories store memory_type
  if all_memories.isEmpty then { success := true, memories := [], count := 0 }
  else if (all_memories.map Memory.content).all (fun c => c == "") then
    { success := true, memories := [], count := 0 }
  else if fitOk = false then { success := true, memories := [], count := 0 }
  else
    let results := (all_memories.filter (fun m => threshold ≤ sim m)).map
      (fun m => { mem := m, score := sim m })
    let final := (pySort semSortGe results).take limit
    { success := true, memories := final, count := final.length }

/-- Whether `sub` occurs as a contiguous substring, on character lists. -/
def hasSubChars (sub : List Char) : List Char → Bool
  | [] => sub.isEmpty
  | c :: cs => sub.isPrefixOf (c :: cs) || hasSubChars sub cs

/-- Python `sub in s` on strings. -/
def strHasSub (s sub : String) : Bool := hasSubChars sub.toList s.toList

/-- The `match_score` attached by `search_memories`: 0.95 for a
case-insensitive content substring match, else 0.85 for an exact tag match,
else the initial 1.0. -/
def matchScore (query : String) (m : Memory) : ℚ :=
  if strHasSub m.content.toLower query.toLower then 19/20
  else if m.tags.contains query.toLower then 17/20
  else 1

/-- Mongo `sort([("importance", -1), ("timestamp", -1)])`: descending
lexicographic BSON string order on `importance`, then descending timestamp
(Mongo's tie behaviour is unspecified; modelled as stable, which no theorem
relies on). -/
def mongoImpTsGe (a b : Memory) : Bool :=
  decide (b.importance < a.importance) ||
    (a.importance == b.importance && decide (b.timestamp ≤ a.timestamp))

/-- The find filter of `search_memories`: unarchived, content regex match or
exact lower-cased tag match, and the optional type filter.  `regexMatch q c`
models Mongo's case-insensitive `$regex` match of pattern `q` against content
`c` (the regex engine is external and left abstract). -/
def searchCond (query : String) (regexMatch : String → String → Bool)
    (memory_type : Option String) (m : Memory) : Bool :=
  m.archived == false &&
    (regexMatch query m.content || m.tags.contains query.toLower) &&
    (match memory_type with | some t => m.type == t | none => true)

/-- `MemoryManager.search_memories(query, memory_type, limit, use_semantic)`:
regex search sorted by `(importance desc, timestamp desc)` with limit; when
semantic search is enabled and the regex search found nothing, fall back to
`semantic_search` (whose modelled result is always a success, so the fallback
result is returned); otherwise attach match scores. -/
def searchMemories (store : List Memory) (query : String)
    (regexMatch : String → String → Bool) (memory_type : Option String)
    (limit : Nat) (use_semantic : Bool) (fitOk : Bool) (sim : Memory → ℚ) :
    SemResult :=
  let regex_results :=
    (pySort mongoImpTsGe
        (store.filter (searchCond query regexMatch memory_type))).take limit
  if use_semantic && regex_results.isEmpty then
    semanticSearch store memory_type limit (3/10) fitOk sim
  else
    { success := true,
      memories := regex_results.map (fun m => { mem := m, score := matchScore query m }),
      count := regex_results.length }

/-- Result dictionary of `get_memory`. -/
structure GetResult where
  success : Bool
  memory : Option Memory
  error : Option String
  deriving DecidableEq, Repr

/-- The `$inc`/`$set` of `get_memory`: bump `access_count`, refresh
`last_accessed`. -/
def touchMemory (now : Int) (m : Memory) : Memory :=
  { m with access_count := m.access_count + 1, last_accessed := some now }

/-- `MemoryManager.get_memory(memory_id)`: `update_one` the access metadata of
the first match, then `find_one` it — with no filter on `archived`. -/
def getMemory (now : Int) (store : List Memory) (memory_id : String) :
    List Memory × GetResult :=
  let store' := updateFirst (fun m => m.memory_id == memory_id)
    (touchMemory now) store
  match store'.find? (fun m => m.memory_id == memory_id) with
  | none => (store', { success := false, memory := none,
                       error := some ("Memory not found") })
  | some m => (store', { success := true, memory := some m, error := none })

/-- A document of the `events` collection, as written by
`HabitLearningEngine.record_event` (`analyzed` is omitted — no embedded
operation reads it).  `app_name` is `event_data["app_name"]`, with `""`
modelling a missing or empty name (both falsy in Python); `timestamp` is in
minutes (ISO order ≅ integer order, and `_time_diff_minutes` divides seconds
by 60). -/
structure Event where
  event_id : String
  event_type : String
  app_name : String
  timestamp : Int
  time_of_day : String
  day_of_week : String
  deriving DecidableEq, Repr

/-- A Python dict value occurring in the pattern / memory documents. -/
inductive PVal where
  | s : String → PVal
  | q : ℚ → PVal
  | n : Nat → PVal
  | i : Int → PVal
  | b : Bool → PVal
  deriving DecidableEq, Repr

/-- A Python dict with string keys. -/
abbrev PDict := List (String × PVal)

/-- Python `d[k]` coerced to a number for a comparison: raises `KeyError` on a
missing key (this is what `_detect_patterns` hits). -/
def dictGetQ (d : PDict) (k : String) : Except String ℚ :=
  match d.lookup k with
  | some (PVal.q v) => Except.ok v
  | some (PVal.n v) => Except.ok (v : ℚ)
  | some (PVal.i v) => Except.ok (v : ℚ)
  | some _ => Except.error (("TypeError: ") ++ k)
  | none => Except.error (("KeyError: ") ++ k)

/-- `_time_diff_minutes`: `abs((t2 - t1).total_seconds() / 60)`. -/
def timeDiffMinutes (t1 t2 : Int) : Nat := (t2 - t1).natAbs

/-- `defaultdict(int)` / `Counter` bump keeping dict insertion order. -/
def bumpCount (k : String) : List (String × Nat) → List (String × Nat)
  | [] => [(k, 1)]
  | (k', n) :: rest =>
    if k' == k then (k', n + 1) :: rest else (k', n) :: bumpCount k rest

/-- `defaultdict(list)` append keeping dict insertion order. -/
def bumpGroup (k v : String) :
    List (String × List String) → List (String × List String)
  | [] => [(k, [v])]
  | (k', vs) :: rest =>
    if k' == k then (k', vs ++ [v]) :: rest else (k', vs) :: bumpGroup k v rest

/-- The consecutive pairs `(l[i], l[i+1])` of a list. -/
def consecutivePairs {α : Type} : List α → List (α × α)
  | [] => []
  | [_] => []
  | x :: y :: rest => (x, y) :: consecutivePairs (y :: rest)

/-- `Counter.most_common(k)`: stable descending sort by count (equal counts
keep first-encountered order), truncated to `k`. -/
def mostCommon (k : Nat) (counts : List (String × Nat)) :
    List (String × Nat) :=
  (pySort (fun a b : String × Nat => decide (b.2 ≤ a.2)) counts).take k

/-- `HabitLearningEngine._detect_sequential_patterns`: count ordered pairs of
consecutive `app_opened` events with both app names non-empty and at most
5 minutes apart; pairs with ≥ 2 occurrences become pattern dicts carrying
`confidence_score = min(0.95, 0.7 + count*0.05)` (note the key name). -/
def detectSequentialPatterns (events : List Event) : List PDict :=
  let app_events := events.filter (fun e => e.event_type == ("app_opened"))
  if app_events.length < 2 then []
  else
    let sequences := (consecutivePairs app_events).foldl
      (fun acc p =>
        if p.1.app_name ≠ "" ∧ p.2.app_name ≠ "" ∧
            timeDiffMinutes p.1.timestamp p.2.timestamp ≤ 5 then
          bumpCount (p.1.app_name ++ (" → ") ++ p.2.app_name) acc
        else acc) []
    (sequences.filter (fun kv => 2 ≤ kv.2)).map (fun kv =>
      [(("pattern_type"), PVal.s ("sequential")),
       (("description"), PVal.s kv.1),
       (("occurrences"), PVal.n kv.2),
       (("confidence_score"),
         PVal.q (min (19/20) (7/10 + (kv.2 : ℚ) * (1/20))))])

/-- `HabitLearningEngine._detect_time_patterns`: group event types by
`time_of_day` (skipping empty fields), and for each period's three most
common event types with `count/total > 0.4` emit a time pattern dict. -/
def detectTimePatterns (events : List Event) : List PDict :=
  let time_events := events.foldl
    (fun acc e =>
      if e.time_of_day ≠ "" ∧ e.event_type ≠ "" then
        bumpGroup e.time_of_day e.event_type acc
      else acc) []
  time_events.foldl (fun pats pe =>
    if pe.2.isEmpty then pats
    else
      let total := pe.2.length
      let counts := pe.2.foldl (fun a t => bumpCount t a) []
      pats ++ (mostCommon 3 counts).foldl (fun acc tc =>
        if (2/5 : ℚ) < (tc.2 : ℚ) / (total : ℚ) then
          acc ++ [[(("pattern_type"), PVal.s ("time_based")),
                   (("description"),
                     PVal.s (("At ") ++ pe.1 ++ (": ") ++ tc.1)),
                   (("time_period"), PVal.s pe.1),
                   (("occurrences"), PVal.n tc.2),
                   (("confidence_score"),
                     PVal.q ((tc.2 : ℚ) / (total : ℚ)))]]
        else acc) []) []

/-- `HabitLearningEngine._detect_frequency_patterns`: event types occurring
≥ 3 times become frequency pattern dicts with
`confidence_score = min(0.95, count/total)`. -/
def detectFrequencyPatterns (events : List Event) : List PDict :=
  let event_counts := events.foldl (fun a e => bumpCount e.event_type a) []
  let total_events := events.length
  event_counts.foldl (fun acc tc =>
    if tc.1 ≠ "" ∧ 3 ≤ tc.2 then
      acc ++ [[(("pattern_type"), PVal.s ("frequency")),
               (("description"), PVal.s (("Frequently: ") ++ tc.1)),
               (("occurrences"), PVal.n tc.2),
               (("confidence_score"),
                 PVal.q (min (19/20) ((tc.2 : ℚ) / (total_events : ℚ))))]]
    else acc) []

/-- The per-detector loop of `_detect_patterns`: keep patterns whose
`pattern["confidence"]` exceeds the threshold — the dict access raises
`KeyError` (every detector emits `confidence_score`, not `confidence`). -/
def filterByThreshold (th : ℚ) : List PDict → Except String (List PDict)
  | [] => Except.ok []
  | d :: ds => do
    let c ← dictGetQ d ("confidence")
    let rest ← filterByThreshold th ds
    pure (if th < c then d :: rest else rest)

/-- `HabitLearningEngine._detect_patterns`: sequential (threshold 0.7), then
time-based (0.6), then frequency (0.6); an uncaught `KeyError` aborts the
whole analysis. -/
def detectPatterns (events : List Event) : Except String (List PDict) := do
  let seqs ← filterByThreshold (7/10) (detectSequentialPatterns events)
  let times ← filterByThreshold (3/5) (detectTimePatterns events)
  let freqs ← filterByThreshold (3/5) (detectFrequencyPatterns events)
  pure (seqs ++ times ++ freqs)

/-- Python `d.get(k)` as a string (`""` for absent, which no produced pattern
hits). -/
def dictGetS (d : PDict) (k : String) : String :=
  match d.lookup k with
  | some (PVal.s v) => v
  | _ => ""

/-- Python `d[k]` as a number with default 0 (every pattern reaching this
carries `confidence_score`, so the default is never used). -/
def dictGetQD (d : PDict) (k : String) : ℚ :=
  match d.lookup k with
  | some (PVal.q v) => v
  | some (PVal.n v) => (v : ℚ)
  | some (PVal.i v) => (v : ℚ)
  | _ => 0

/-- `HabitLearningEngine._generate_habit_suggestions`: sequential and
time-based patterns with confidence ≥ 0.6 become suggestion dicts (the
aliased nested `"pattern"` sub-dict is omitted — no embedded operation reads
it). -/
def genHabitSuggestions (now : Int) (patterns : List PDict) : List PDict :=
  patterns.foldl (fun acc pattern =>
    if dictGetQD pattern ("confidence_score") < 3/5 then acc
    else
      let ptype := dictGetS pattern ("pattern_type")
      if ptype == ("sequential") then
        let desc := dictGetS pattern ("description")
        let parts := desc.splitOn (" → ")
        acc ++ [[(("habit_id"), PVal.s (("hab_") ++ toString now)),
                 (("type"), PVal.s ("automation")),
                 (("title"), PVal.s (("Automate: ") ++ desc)),
                 (("description"),
                   PVal.s (("I noticed you open ") ++ parts.headI ++
                     (" followed by ") ++ (parts.getD 1 "") ++ (" ") ++
                     toString (dictGetQD pattern ("occurrences")).num ++
                     (" times."))),
                 (("confidence_score"),
                   PVal.q (dictGetQD pattern ("confidence_score"))),
                 (("suggested_action"), PVal.s ("create_workflow")),
                 (("status"), PVal.s ("pending"))]]
      else if ptype == ("time_based") then
        acc ++ [[(("habit_id"), PVal.s (("hab_") ++ toString now)),
                 (("type"), PVal.s ("scheduling")),
                 (("title"),
                   PVal.s (("Schedule routine for ") ++
                     dictGetS pattern ("time_period") ++ ("?"))),
                 (("description"),
                   PVal.s (("You frequently ") ++
                     (dictGetS pattern ("description")).toLower)),
                 (("confidence_score"),
                   PVal.q (dictGetQD pattern ("confidence_score"))),
                 (("suggested_action"), PVal.s ("create_schedule")),
                 (("status"), PVal.s ("pending"))]]
      else acc) []

/-- Result dictionary of `analyze_recent_events` (`analysis_period_days` /
`events_analyzed` / `message`, derivable from the inputs, are omitted). -/
structure AnalyzeResult where
  success : Bool
  patterns : List PDict
  habits : List PDict
  error : Option String
  deriving DecidableEq, Repr

/-- The event fetch of `analyze_recent_events`: timestamp within the last
`days` days (1440 minutes each), sorted ascending by timestamp. -/
def windowEvents (now days : Int) (store : List Event) : List Event :=
  pySort (fun a b : Event => decide (a.timestamp ≤ b.timestamp))
    (store.filter (fun e => decide (now - days * 1440 ≤ e.timestamp)))

/-- `HabitLearningEngine.analyze_recent_events(days)` at current time `now`:
empty window → empty success; otherwise pattern detection, whose exceptions
the enclosing `try` converts into a failure result (pattern persistence by
`_store_patterns`, which no claim reads, is omitted). -/
def analyzeRecentEvents (now days : Int) (store : List Event) :
    AnalyzeResult :=
  let events := windowEvents now days store
  if events.isEmpty then
    { success := true, patterns := [], habits := [], error := none }
  else
    match detectPatterns events with
    | Except.error e =>
      { success := false, patterns := [], habits := [], error := some e }
    | Except.ok patterns =>
      { success := true, patterns := patterns,
        habits := genHabitSuggestions now patterns, error := none }

/-- The document `MemoryManager.save_memory` inserts, as a Python dict (keys
as in the source; `context`, `tags`, `relevance_score`, `expiry_date`,
`access_count` and `last_accessed`, which the interaction analysis never
consults, are omitted).  The memory type is stored under the key `"type"`. -/
def saveMemoryDoc (now : Int) (memory_type content importance : String) :
    PDict :=
  [(("memory_id"), PVal.s (("mem_") ++ toString now)),
   (("type"), PVal.s memory_type),
   (("content"), PVal.s content),
   (("timestamp"), PVal.i now),
   (("importance"), PVal.s importance),
   (("archived"), PVal.b false)]

/-- Mongo `{"timestamp": {"$gte": cutoff}}` on a document (a missing or
non-comparable field never matches). -/
def docTsGe (cutoff : Int) (d : PDict) : Bool :=
  match d.lookup ("timestamp") with
  | some (PVal.i t) => cutoff ≤ t
  | some (PVal.n t) => cutoff ≤ (t : Int)
  | _ => false

/-- A candidate preference tuple produced by the behaviour analyzers (the
`evidence` / `source` metadata strings, which nothing downstream reads, are
omitted). -/
structure InferredPattern where
  category : String
  key : String
  value : String
  confidence : ℚ
  deriving DecidableEq, Repr

/-- `PreferenceManager._analyze_interaction_preferences(cutoff_date)` over the
`memories` collection: fetch documents in the window whose `memory_type` field
is `"conversation"` (note: this is the query key the source uses), require at
least 5, average the non-empty content lengths, and map the average to a
response style (<100 → brief/0.75, <300 → moderate/0.70, else
detailed/0.75). -/
def analyzeInteractionPreferences (cutoff : Int) (memStore : List PDict) :
    List InferredPattern :=
  let conversations := memStore.filter (fun d =>
    docTsGe cutoff d &&
      d.lookup ("memory_type") == some (PVal.s ("conversation")))
  if conversations.length < 5 then []
  else
    let response_lengths := conversations.foldl
      (fun acc conv =>
        match conv.lookup ("content") with
        | some (PVal.s c) => if c ≠ "" then acc ++ [c.length] else acc
        | _ => acc) []
    if response_lengths.isEmpty then []
    else
      let avg : ℚ :=
        ((response_lengths.foldl (· + ·) 0 : Nat) : ℚ) /
          (response_lengths.length : ℚ)
      if avg < 100 then
        [{ category := "interaction", key := "response_style",
           value := "brief", confidence := 3/4 }]
      else if avg < 300 then
        [{ category := "interaction", key := "response_style",
           value := "moderate", confidence := 7/10 }]
      else
        [{ category := "interaction", key := "response_style",
           value := "detailed", confidence := 3/4 }]

/-- Five conversation memories saved through `save_memory` at times 1..5,
each with a 50-character content. -/
def c8store : List PDict :=
  [saveMemoryDoc 1 ("conversation")
      ("short reply number one padded to fifty characters!") ("medium"),
   saveMemoryDoc 2 ("conversation")
      ("short reply number two padded to fifty characters!") ("medium"),
   saveMemoryDoc 3 ("conversation")
      ("short reply number ttt padded to fifty characters!") ("medium"),
   saveMemoryDoc 4 ("conversation")
      ("short reply number for padded to fifty characters!") ("medium"),
   saveMemoryDoc 5 ("conversation")
      ("short reply number fiv padded to fifty characters!") ("medium")]

/-- An `app_opened Chrome` event at minute `t`. -/
def evChrome (i : Nat) (t : Int) : Event :=
  { event_id := ("e") ++ toString i, event_type := "app_opened",
    app_name := "Chrome", timestamp := t, time_of_day := "morning",
    day_of_week := "Monday" }

/-- Four Chrome openings at minutes 0, 1, 100, 101: the `Chrome → Chrome`
pair occurs twice within the 5-minute adjacency window. -/
def c4events : List Event :=
  [evChrome 1 0, evChrome 2 1, evChrome 3 100, evChrome 4 101]

/-- Two Chrome openings 1 minute apart: a single occurrence of the pair. -/
def c4single : List Event := [evChrome 1 0, evChrome 2 1]

/-- An unarchived high-importance memory whose modelled similarity is 1. -/
def memA : Memory :=
  { memory_id := "a", type := "fact", content := "alpha", timestamp := 5,
    tags := [], importance := "high", archived := false, archived_at := none,
    access_count := 0, last_accessed := none }

/-- An unarchived low-importance memory whose modelled similarity is 0. -/
def memB : Memory :=
  { memory_id := "b", type := "fact", content := "beta", timestamp := 6,
    tags := [], importance := "low", archived := false, archived_at := none,
    access_count := 0, last_accessed := none }

/-- An archived memory, for the soft-deletion claim. -/
def memArch : Memory :=
  { memory_id := "arch", type := "fact", content := "alpha", timestamp := 7,
    tags := ["alpha"], importance := "high", archived := true,
    archived_at := some 9, access_count := 0, last_accessed := none }

/-- Similarity oracle giving `memA` score 1 and everything else 0. -/
def simAB (m : Memory) : ℚ := if m.memory_id == ("a") then 1 else 0

theorem cleanup_passes_eq (now d : Int) (store : List Memory) :
    (cleanupOldMemories now d store).1 = store.map (cleanupChain now d) := by
  simp only [cleanupOldMemories, retentionPolicies, List.foldl_cons,
    List.foldl_nil, List.map_map]
  rfl

theorem cleanupRecord_type (now d : Int) (m : Memory) :
    (cleanupRecord now d m).type = m.type := by
  unfold cleanupRecord; split <;> rfl

theorem cleanupPass_skip (now r : Int) (t : String) (m : Memory)
    (h : m.type ≠ t) : cleanupPass now r t m = m := by
  simp [cleanupPass, h]

theorem cleanupChain_record (now d : Int) (m : Memory)
    (hm : m.type ∈ retentionTypes) :
    cleanupChain now d m = cleanupRecord now d m := by
  simp only [retentionTypes, List.mem_cons, List.mem_singleton,
    List.not_mem_nil, or_false] at hm
  unfold cleanupChain
  rcases hm with h | h | h | h | h
  · have hit : cleanupPass now d ("conversation") m = cleanupRecord now d m := by
      simp [cleanupPass, cleanupRecord, retentionMult, h, mul_comm]
    rw [hit,
      cleanupPass_skip now (d * 3) _ _ (by rw [cleanupRecord_type, h]; decide),
      cleanupPass_skip now (d * 10) _ _ (by rw [cleanupRecord_type, h]; decide),
      cleanupPass_skip now (d * 5) _ _ (by rw [cleanupRecord_type, h]; decide),
      cleanupPass_skip now (d * 2) _ _ (by rw [cleanupRecord_type, h]; decide)]
  · have hit : cleanupPass now (d * 3) ("preference") m =
        cleanupRecord now d m := by
      simp [cleanupPass, cleanupRecord, retentionMult, h, mul_comm]
    rw [cleanupPass_skip now d _ _ (by rw [h]; decide), hit,
      cleanupPass_skip now (d * 10) _ _ (by rw [cleanupRecord_type, h]; decide),
      cleanupPass_skip now (d * 5) _ _ (by rw [cleanupRecord_type, h]; decide),
      cleanupPass_skip now (d * 2) _ _ (by rw [cleanupRecord_type, h]; decide)]
  · have hit : cleanupPass now (d * 10) ("fact") m = cleanupRecord now d m := by
      simp [cleanupPass, cleanupRecord, retentionMult, h, mul_comm]
    rw [cleanupPass_skip now d _ _ (by rw [h]; decide),
      cleanupPass_skip now (d * 3) _ _ (by rw [h]; decide), hit,
      cleanupPass_skip now (d * 5) _ _ (by rw [cleanupRecord_type, h]; decide),
      cleanupPass_skip now (d * 2) _ _ (by rw [cleanupRecord_type, h]; decide)]
  · have hit : cleanupPass now (d * 5) ("learning") m =
        cleanupRecord now d m := by
      simp [cleanupPass, cleanupRecord, retentionMult, h, mul_comm]
    rw [cleanupPass_skip now d _ _ (by rw [h]; decide),
      cleanupPass_skip now (d * 3) _ _ (by rw [h]; decide),
      cleanupPass_skip now (d * 10) _ _ (by rw [h]; decide), hit,
      cleanupPass_skip now (d * 2) _ _ (by rw [cleanupRecord_type, h]; decide)]
  · have hit : cleanupPass now (d * 2) ("event") m = cleanupRecord now d m := by
      simp [cleanupPass, cleanupRecord, retentionMult, h, mul_comm]
    rw [cleanupPass_skip now d _ _ (by rw [h]; decide),
      cleanupPass_skip now (d * 3) _ _ (by rw [h]; decide),
      cleanupPass_skip now (d * 10) _ _ (by rw [h]; decide),
      cleanupPass_skip now (d * 5) _ _ (by rw [h]; decide), hit]

theorem updateFirst_no_match {α : Type} (p : α → Bool) (f : α → α)
    (l : List α) (h : ∀ x ∈ l, p x = false) : updateFirst p f l = l := by
  induction l with
  | nil => rfl
  | cons x xs ih =>
    simp only [updateFirst, h x (List.mem_cons_self x xs), if_neg]
    rw [ih (fun y hy => h y (List.mem_cons_of_mem x hy))]
    simp

theorem updateFirst_append {α : Type} (p : α → Bool) (f : α → α)
    (pre post : List α) (s : α) (hpre : ∀ x ∈ pre, p x = false)
    (hs : p s = true) :
    updateFirst p f (pre ++ s :: post) = pre ++ f s :: post := by
  induction pre with
  | nil => simp [updateFirst, hs]
  | cons x xs ih =>
    simp only [List.cons_append, updateFirst,
      hpre x (List.mem_cons_self x xs), Bool.false_eq_true, if_false,
      List.append_eq]
    rw [ih (fun y hy => hpre y (List.mem_cons_of_mem x hy))]

theorem find?_updateFirst {α : Type} (p : α → Bool) (f : α → α)
    (hf : ∀ x, p x = true → p (f x) = true) (l : List α) :
    (updateFirst p f l).find? p = (l.find? p).map f := by
  induction l with
  | nil => rfl
  | cons x xs ih =>
    by_cases hx : p x = true
    · simp [updateFirst, List.find?, hx, hf x hx]
    · have hx' : p x = false := by
        cases hpx : p x
        · rfl
        · exact absurd hpx hx
      simp [updateFirst, List.find?, hx', ih]

theorem lookupPref_upsert (doc : Preference) (store : List Preference) :
    lookupPref (upsertPreference doc store) doc.category doc.key = some doc := by
  induction store with
  | nil => simp [lookupPref, upsertPreference, List.find?, prefMatches]
  | cons p ps ih =>
    by_cases hp : (p.category == doc.category && p.key == doc.key) = true
    · simp [lookupPref, upsertPreference, hp, List.find?, prefMatches]
    · have hp' : (p.category == doc.category && p.key == doc.key) = false := by
        cases hpb : (p.category == doc.category && p.key == doc.key)
        · rfl
        · exact absurd hpb hp
      simp only [upsertPreference, hp', Bool.false_eq_true, if_false]
      simp only [lookupPref, List.find?, prefMatches, hp']
      exact ih

theorem mem_insSorted {α : Type} (le : α → α → Bool) (x y : α) (l : List α) :
    y ∈ insSorted le x l ↔ y = x ∨ y ∈ l := by
  induction l with
  | nil => simp [insSorted]
  | cons z zs ih =>
    unfold insSorted
    split
    · simp [List.mem_cons]
    · simp only [List.mem_cons, ih]
      tauto

theorem mem_pySort {α : Type} (le : α → α → Bool) (y : α) (l : List α) :
    y ∈ pySort le l ↔ y ∈ l := by
  induction l with
  | nil => simp [pySort]
  | cons z zs ih =>
    rw [show pySort le (z :: zs) = insSorted le z (pySort le zs) from rfl,
      mem_insSorted]
    simp only [List.mem_cons, ih]

theorem semanticSearch_archived (store : List Memory) (mt : Option String)
    (limit : Nat) (threshold : ℚ) (fitOk : Bool) (sim : Memory → ℚ) :
    ∀ sm ∈ (semanticSearch store mt limit threshold fitOk sim).memories,
      sm.mem.archived = false := by
  intro sm hsm
  unfold semanticSearch at hsm
  dsimp only at hsm
  split at hsm
  · exact absurd hsm (List.not_mem_nil sm)
  · split at hsm
    · exact absurd hsm (List.not_mem_nil sm)
    · split at hsm
      · exact absurd hsm (List.not_mem_nil sm)
      · have h1 := List.mem_of_mem_take hsm
        rw [mem_pySort] at h1
        rcases List.mem_map.mp h1 with ⟨m, hmem, hsm'⟩
        have h2 := List.mem_filter.mp (List.mem_filter.mp hmem).1
        have harch : (m.archived == false) = true := by
          have := h2.2
          simp only [Bool.and_eq_true] at this
          exact this.1
        rw [← hsm']
        simpa using harch

theorem searchMemories_archived (store : List Memory) (query : String)
    (regexMatch : String → String → Bool) (mt : Option String) (limit : Nat)
    (use_semantic fitOk : Bool) (sim : Memory → ℚ) :
    ∀ sm ∈ (searchMemories store query regexMatch mt limit use_semantic fitOk
        sim).memories,
      sm.mem.archived = false := by
  intro sm hsm
  unfold searchMemories at hsm
  dsimp only at hsm
  split at hsm
  · exact semanticSearch_archived store mt limit (3/10) fitOk sim sm hsm
  · rcases List.mem_map.mp hsm with ⟨m, hmem, hsm'⟩
    have h1 := List.mem_of_mem_take hmem
    rw [mem_pySort] at h1
    have h2 := (List.mem_filter.mp h1).2
    simp only [searchCond, Bool.and_eq_true] at h2
    rw [← hsm']
    simpa using h2.1.1

theorem getMemory_found (now : Int) (store : List Memory) (id : String)
    (m : Memory) (h : store.find? (fun x => x.memory_id == id) = some m) :
    getMemory now store id =
      (updateFirst (fun x => x.memory_id == id) (touchMemory now) store,
        { success := true, memory := some (touchMemory now m),
          error := none }) := by
  unfold getMemory
  dsimp only
  rw [find?_updateFirst (fun x => x.memory_id == id) (touchMemory now)
      (fun x hx => hx) store, h]
  rfl

end Elixi

namespace Claims
open Elixi

/-- C2 counterexample: `sugg0` is already responded (`status = "responded"`,
`user_response = accepted`), yet `respond_to_suggestion` on its id overwrites
`user_response` with the new response — not a no-op. -/
theorem C2_counterexample :
    sugg0.status ≠ ("pending") ∧
      (respondToSuggestion 5 [sugg0] ("sg1") ("rejected") none).1 =
        [{ sugg0 with
            user_response := some ("rejected")
            response_date := some 5 }] ∧
      some ("rejected") ≠ sugg0.user_response := by
  refine ⟨by decide, ?_, by decide⟩
  decide

/-- C2 (amended): `respond_to_suggestion` on any stored suggestion — whatever
its current status, pending or not — overwrites it: status becomes
`responded`, `user_response` becomes the new response, `response_date` is set,
and `helpful` is overwritten exactly when a value is supplied. -/
theorem C2_respond_overwrites (now : Int) (id resp : String)
    (helpful : Option Bool) (s : Suggestion) (pre post : List Suggestion)
    (hpre : ∀ x ∈ pre, x.suggestion_id ≠ id) (hs : s.suggestion_id = id) :
    (respondToSuggestion now (pre ++ s :: post) id resp helpful).1 =
        pre ++ respondUpdate now resp helpful s :: post ∧
      (respondUpdate now resp helpful s).status = ("responded") ∧
      (respondUpdate now resp helpful s).user_response = some resp ∧
      (respondUpdate now resp helpful s).response_date = some now ∧
      (respondUpdate now resp helpful s).helpful =
        (match helpful with | some h => some h | none => s.helpful) := by
  refine ⟨?_, rfl, rfl, rfl, rfl⟩
  unfold respondToSuggestion
  exact updateFirst_append _ _ pre post s
    (fun x hx => by simpa using hpre x hx) (by simpa using hs)

/-- C2 witness: responding to the already-responded `sugg0` rewrites its
stored response. -/
theorem C2_respond_overwrites_witness :
    (∀ x ∈ ([] : List Suggestion), x.suggestion_id ≠ ("sg1")) ∧
      sugg0.suggestion_id = ("sg1") ∧
      ((respondToSuggestion 5 ([] ++ sugg0 :: []) ("sg1") ("rejected")
            none).1 =
          [] ++ respondUpdate 5 ("rejected") none sugg0 :: [] ∧
        (respondUpdate 5 ("rejected") none sugg0).status = ("responded") ∧
        (respondUpdate 5 ("rejected") none sugg0).user_response =
          some ("rejected") ∧
        (respondUpdate 5 ("rejected") none sugg0).response_date = some 5 ∧
        (respondUpdate 5 ("rejected") none sugg0).helpful =
          (match (none : Option Bool) with
            | some h => some h | none => sugg0.helpful)) :=
  ⟨fun x hx => absurd hx (List.not_mem_nil x), rfl,
    C2_respond_overwrites 5 ("sg1") ("rejected") none sugg0 [] []
      (fun x hx => absurd hx (List.not_mem_nil x)) rfl⟩

/-- C10: responding to a suggestion id absent from the store returns a success
result and leaves the stored suggestions unchanged. -/
theorem C10_respond_missing_id (now : Int) (store : List Suggestion)
    (id resp : String) (helpful : Option Bool)
    (h : ∀ s ∈ store, s.suggestion_id ≠ id) :
    respondToSuggestion now store id resp helpful =
      (store, { success := true,
                message := ("Response recorded: ") ++ resp }) := by
  unfold respondToSuggestion
  rw [updateFirst_no_match _ _ store (fun x hx => by simpa using h x hx)]

/-- C10 witness: responding with an unknown id on the one-element store. -/
theorem C10_respond_missing_id_witness :
    (∀ s ∈ [sugg0], s.suggestion_id ≠ ("nope")) ∧
      respondToSuggestion 7 [sugg0] ("nope") ("accepted") (some true) =
        ([sugg0], { success := true,
                    message := ("Response recorded: ") ++ ("accepted") }) :=
  ⟨by decide,
    C10_respond_missing_id 7 [sugg0] ("nope") ("accepted") (some true)
      (by decide)⟩

/-- C1: `cleanup_old_memories(days_to_keep)` maps every stored record through
the per-record cleanup rule, and for a record of one of the five policed types
that rule archives it iff it is unarchived, its importance is low, and its
timestamp is older than `days_to_keep` times the per-type retention multiplier
(conversation ×1, preference ×3, fact ×10, learning ×5, event ×2). -/
theorem C1_cleanup_retention (now d : Int) (store : List Memory) (m : Memory)
    (hm : m.type ∈ retentionTypes) :
    (cleanupOldMemories now d store).1 = store.map (cleanupChain now d) ∧
      (((cleanupChain now d m).archived = true ∧ m.archived = false) ↔
        (m.archived = false ∧ m.importance = ("low") ∧
          m.timestamp < now - retentionMult m.type * d)) := by
  refine ⟨cleanup_passes_eq now d store, ?_⟩
  rw [cleanupChain_record now d m hm]
  unfold cleanupRecord
  split <;> rename_i hcond
  · simp only [true_and]
    exact ⟨fun hh => ⟨hcond.2.1, hcond.2.2, hcond.1⟩, fun _ => hcond.2.1⟩
  · constructor
    · rintro ⟨h1, h2⟩
      rw [h1] at h2; cases h2
    · rintro ⟨h1, h2, h3⟩
      exact absurd ⟨h3, h1, h2⟩ hcond

/-- C1 witness: with base `days_to_keep = 90` at time 1000 (days), the
low-importance fact record aged 700 days is kept while the one aged 901 days
is archived. -/
theorem C1_cleanup_retention_witness :
    mem901.type ∈ retentionTypes ∧
      ((cleanupOldMemories 1000 90 [mem700, mem901]).1 =
          [mem700, mem901].map (cleanupChain 1000 90) ∧
        (((cleanupChain 1000 90 mem901).archived = true ∧
            mem901.archived = false) ↔
          (mem901.archived = false ∧ mem901.importance = ("low") ∧
            mem901.timestamp < 1000 - retentionMult mem901.type * 90))) ∧
      (cleanupOldMemories 1000 90 [mem700, mem901]).1 =
        [mem700, { mem901 with archived := true, archived_at := some 1000 }] :=
  ⟨by decide, C1_cleanup_retention 1000 90 [mem700, mem901] mem901 (by decide),
    by decide⟩

/-- C3 (code bug): two identical `set_preference("voice","speed","fast")`
writes store the same value both times, but the stored `version` is `1` after
the first write and still `1` after the second — `set_preference` `$set`s
`version: 1` unconditionally, so the version is never strictly increased by a
write (the spec, and the `version > 1` reading in
`get_learning_analytics`, expect a bump). -/
theorem C3_version_never_bumps :
    (lookupPref prefStore1 ("voice") ("speed")).map Preference.value =
        some ("fast") ∧
      (lookupPref prefStore2 ("voice") ("speed")).map Preference.value =
        some ("fast") ∧
      (lookupPref prefStore1 ("voice") ("speed")).map Preference.version =
        some 1 ∧
      (lookupPref prefStore2 ("voice") ("speed")).map Preference.version =
        some 1 := by
  refine ⟨?_, ?_, ?_, ?_⟩ <;> rfl

/-- C6: after any preference write — `set_preference` with arbitrary
caller-supplied confidence, a successful `learn_preference`, or
`apply_preference` — the stored confidence of the written preference lies in
`[0, 1]`. -/
theorem C6_confidence_in_range (now : Int) (store : List Preference)
    (category key value source : String) (c : ℚ) :
    (lookupPref ((setPreference now store category key value source c).1)
          category key =
        some (newPreferenceDoc now category key value source c) ∧
      0 ≤ (newPreferenceDoc now category key value source c).confidence ∧
      (newPreferenceDoc now category key value source c).confidence ≤ 1) ∧
    ((learnPreference now store category key value c).2.success = true →
      lookupPref ((learnPreference now store category key value c).1)
          category key =
        some (newPreferenceDoc now category key value ("inferred") c) ∧
      0 ≤ (newPreferenceDoc now category key value ("inferred") c).confidence ∧
      (newPreferenceDoc now category key value ("inferred") c).confidence
        ≤ 1) ∧
    (∀ q, lookupPref ((applyPreference now store category key).1)
          category key = some q →
      0 ≤ q.confidence ∧ q.confidence ≤ 1) := by
  have hset : ∀ src : String,
      lookupPref ((setPreference now store category key value src c).1)
          category key =
        some (newPreferenceDoc now category key value src c) :=
    fun src => lookupPref_upsert (newPreferenceDoc now category key value src c)
      store
  have hlo : (0 : ℚ) ≤ max 0 (min 1 c) := le_max_left 0 (min 1 c)
  have hhi : max 0 (min 1 c) ≤ 1 := max_le zero_le_one (min_le_left 1 c)
  refine ⟨⟨hset source, hlo, hhi⟩, ?_, ?_⟩
  · intro hsucc
    unfold learnPreference at hsucc ⊢
    split at hsucc
    · cases hsucc
    · rename_i hc
      rw [if_neg hc]
      exact ⟨hset ("inferred"), hlo, hhi⟩
  · intro q hq
    unfold applyPreference at hq
    split at hq
    · rw [show lookupPref
            (updateFirst (prefMatches category key) (applyUpdate now) store)
            category key =
          (lookupPref store category key).map (applyUpdate now) from
          find?_updateFirst (prefMatches category key) (applyUpdate now)
            (fun x hx => hx) store] at hq
      rcases Option.map_eq_some'.mp hq with ⟨x, _, hx⟩
      rw [← hx]
      exact ⟨zero_le_one, le_refl 1⟩
    · rename_i hnone
      exfalso
      apply hnone
      simp only [lookupPref] at hq
      rw [hq]
      rfl

/-- C6 witness: writing with an out-of-range confidence 2 on the empty store
still leaves the stored confidence inside `[0, 1]`. -/
theorem C6_confidence_in_range_witness :
    (lookupPref ((setPreference 1 [] ("voice") ("speed") ("fast") ("manual")
            2).1) ("voice") ("speed") =
        some (newPreferenceDoc 1 ("voice") ("speed") ("fast") ("manual") 2) ∧
      0 ≤ (newPreferenceDoc 1 ("voice") ("speed") ("fast") ("manual")
            2).confidence ∧
      (newPreferenceDoc 1 ("voice") ("speed") ("fast") ("manual")
            2).confidence ≤ 1) ∧
    ((learnPreference 1 [] ("voice") ("speed") ("fast") 2).2.success = true →
      lookupPref ((learnPreference 1 [] ("voice") ("speed") ("fast") 2).1)
          ("voice") ("speed") =
        some (newPreferenceDoc 1 ("voice") ("speed") ("fast") ("inferred")
            2) ∧
      0 ≤ (newPreferenceDoc 1 ("voice") ("speed") ("fast") ("inferred")
            2).confidence ∧
      (newPreferenceDoc 1 ("voice") ("speed") ("fast") ("inferred")
            2).confidence ≤ 1) ∧
    (∀ q, lookupPref ((applyPreference 1 [] ("voice") ("speed")).1) ("voice")
          ("speed") = some q →
      0 ≤ q.confidence ∧ q.confidence ≤ 1) :=
  C6_confidence_in_range 1 [] ("voice") ("speed") ("fast") ("manual") 2

/-- C4 (code bug): on four Chrome openings forming two `Chrome → Chrome`
pairs within 5 minutes, `_detect_sequential_patterns` does emit the candidate
pattern (with 2 occurrences and no `confidence` key, only
`confidence_score`), but `analyze_recent_events` then fails with
`KeyError: confidence` in `_detect_patterns` instead of succeeding and
surfacing the pattern; a single occurrence yields no candidate. -/
theorem C4_detect_patterns_keyerror :
    (detectSequentialPatterns c4events).map
        (fun d => d.lookup ("description")) =
      [some (PVal.s ("Chrome → Chrome"))] ∧
    (detectSequentialPatterns c4events).map
        (fun d => d.lookup ("occurrences")) = [some (PVal.n 2)] ∧
    (detectSequentialPatterns c4events).map
        (fun d => d.lookup ("confidence")) = [none] ∧
    analyzeRecentEvents 200 7 c4events =
      { success := false, patterns := [], habits := [],
        error := some (("KeyError: ") ++ ("confidence")) } ∧
    detectSequentialPatterns c4single = [] := by
  refine ⟨?_, ?_, ?_, ?_, ?_⟩ <;> decide

/-- C5 (code bug): with memory `memA` (similarity 1, newer tie data) and
`memB` (similarity 0), `semantic_search` returns `memB` before `memA` — the
double inversion `key = -score` with `reverse=True` orders the primary key
ascending by similarity, not descending. -/
theorem C5_semantic_sort_ascending :
    (semanticSearch [memA, memB] none 20 0 true simAB).memories =
      [{ mem := memB, score := 0 }, { mem := memA, score := 1 }] ∧
    simAB memB < simAB memA := by
  exact ⟨by decide, by decide⟩

/-- C7: on degenerate inputs — empty active corpus, all-empty contents, or a
vectorizer fit failure — `semantic_search` returns an empty success, and with
no events in the window `analyze_recent_events` returns an empty success; no
exception reaches the caller. -/
theorem C7_degenerate_inputs (store : List Memory) (mt : Option String)
    (limit : Nat) (threshold : ℚ) (fitOk : Bool) (sim : Memory → ℚ)
    (now days : Int) (estore : List Event)
    (h1 : activeMemories store mt = [] ∨
      ((activeMemories store mt).map Memory.content).all
          (fun c => c == "") = true ∨
      fitOk = false)
    (h2 : windowEvents now days estore = []) :
    semanticSearch store mt limit threshold fitOk sim =
        { success := true, memories := [], count := 0 } ∧
      analyzeRecentEvents now days estore =
        { success := true, patterns := [], habits := [], error := none } := by
  constructor
  · rcases h1 with h | h | h
    · simp [semanticSearch, h]
    · by_cases hemp : (activeMemories store mt).isEmpty <;>
        simp [semanticSearch, h, hemp]
    · subst h
      by_cases hemp : (activeMemories store mt).isEmpty
      · simp [semanticSearch, hemp]
      · by_cases hall : ((activeMemories store mt).map Memory.content).all
            (fun c => c == "") <;>
          simp [semanticSearch, hemp, hall]
  · simp [analyzeRecentEvents, h2]

/-- C7 witness: the empty memory store and the empty event store. -/
theorem C7_degenerate_inputs_witness :
    (activeMemories [] none = [] ∨
      ((activeMemories [] none).map Memory.content).all
          (fun c => c == "") = true ∨
      true = false) ∧
    windowEvents 0 7 [] = [] ∧
    (semanticSearch [] none 20 0 true (fun _ => 0) =
        { success := true, memories := [], count := 0 } ∧
      analyzeRecentEvents 0 7 [] =
        { success := true, patterns := [], habits := [], error := none }) :=
  ⟨Or.inl rfl, rfl,
    C7_degenerate_inputs [] none 20 0 true (fun _ => 0) 0 7 [] (Or.inl rfl)
      rfl⟩

/-- C8 (code bug): `save_memory` stores the memory type under the key
`"type"`, but `_analyze_interaction_preferences` queries the key
`"memory_type"`: on five conversation memories saved through `save_memory`
the query matches nothing, so no interaction/response_style preference is
inferred, although the five documents all carry `type = "conversation"`. -/
theorem C8_memory_type_query_mismatch :
    c8store.map (fun d => d.lookup ("type")) =
        List.replicate 5 (some (PVal.s ("conversation"))) ∧
      c8store.map (fun d => d.lookup ("memory_type")) =
        List.replicate 5 none ∧
      5 ≤ c8store.length ∧
      c8store.countP (fun d => docTsGe 0 d &&
        d.lookup ("type") == some (PVal.s ("conversation"))) = 5 ∧
      analyzeInteractionPreferences 0 c8store = [] := by
  refine ⟨?_, ?_, ?_, ?_, ?_⟩ <;> decide

/-- C9: archived records are excluded from `search_memories` and
`semantic_search`, yet `get_memory` on an archived record's id still returns
that record (with its access metadata touched): archival is soft deletion. -/
theorem C9_archival_soft_delete (now : Int) (store : List Memory)
    (query id : String) (regexMatch : String → String → Bool)
    (mt : Option String) (limit : Nat) (threshold : ℚ)
    (use_semantic fitOk : Bool) (sim : Memory → ℚ) (m : Memory)
    (hm : store.find? (fun x => x.memory_id == id) = some m)
    (harch : m.archived = true) :
    (∀ sm ∈ (searchMemories store query regexMatch mt limit use_semantic
        fitOk sim).memories, sm.mem.archived = false) ∧
    (∀ sm ∈ (semanticSearch store mt limit threshold fitOk sim).memories,
      sm.mem.archived = false) ∧
    (getMemory now store id).2.success = true ∧
    (getMemory now store id).2.memory = some (touchMemory now m) ∧
    (touchMemory now m).archived = true ∧
    (touchMemory now m).memory_id = m.memory_id := by
  refine ⟨searchMemories_archived store query regexMatch mt limit use_semantic
      fitOk sim,
    semanticSearch_archived store mt limit threshold fitOk sim, ?_, ?_, ?_,
    rfl⟩
  · rw [getMemory_found now store id m hm]
  · rw [getMemory_found now store id m hm]
  · show m.archived = true
    exact harch

/-- C9 witness: a store holding the archived `memArch` (with id "arch") and
the active `memA`. -/
theorem C9_archival_soft_delete_witness :
    [memArch, memA].find? (fun x => x.memory_id == ("arch")) = some memArch ∧
    memArch.archived = true ∧
    ((∀ sm ∈ (searchMemories [memArch, memA] ("alpha") (fun q c => strHasSub c q) none
        20 true
        true simAB).memories, sm.mem.archived = false) ∧
      (∀ sm ∈ (semanticSearch [memArch, memA] none 20 0 true
          simAB).memories, sm.mem.archived = false) ∧
      (getMemory 50 [memArch, memA] ("arch")).2.success = true ∧
      (getMemory 50 [memArch, memA] ("arch")).2.memory =
        some (touchMemory 50 memArch) ∧
      (touchMemory 50 memArch).archived = true ∧
      (touchMemory 50 memArch).memory_id = memArch.memory_id) :=
  ⟨by decide, by decide,
    C9_archival_soft_delete 50 [memArch, memA] ("alpha") ("arch")
      (fun q c => strHasSub c q) none 20 0 true true simAB memArch (by decide)
      (by decide)⟩

end Claims
